import Mathlib

/-
Shallow embedding of the accounting core of the SUI paper-trading bot
(sui_trading_bot.py).  Python dicts are modelled as association lists,
Python floats as exact rationals, and the random fluctuation drawn by
the price oracle is passed in explicitly as a parameter.  A Python
KeyError on a missing dict key is modelled by Option, and the two
error replies of the trade handlers by an explicit error type.
-/

/-- Dict read: `d[key]`, `none` when the key is absent (KeyError). -/
def dictGet {α β : Type} [DecidableEq α] : List (α × β) → α → Option β
  | [], _ => none
  | (k, v) :: rest, key => if k = key then some v else dictGet rest key

/-- Dict write: `d[key] = val`; updates in place or appends a new key. -/
def dictSet {α β : Type} [DecidableEq α] : List (α × β) → α → β → List (α × β)
  | [], key, val => [(key, val)]
  | (k, v) :: rest, key, val =>
      if k = key then (key, val) :: rest else (k, v) :: dictSet rest key val

/-- Dict delete: `del d[key]`. -/
def dictRemove {α β : Type} [DecidableEq α] : List (α × β) → α → List (α × β)
  | [], _ => []
  | (k, v) :: rest, key =>
      if k = key then dictRemove rest key else (k, v) :: dictRemove rest key

/-- Token table entry: `{"name": ..., "price": ...}`. -/
structure TokenInfo where
  name : String
  price : ℚ
deriving DecidableEq

/-- The fixed TOKENS table from the source. -/
def TOKENS : List (String × TokenInfo) :=
  [("SUI", ⟨"Sui", 1⟩),
   ("MOON", ⟨"Moon", 1/2⟩),
   ("STAR", ⟨"Star", 3/4⟩),
   ("ROCKET", ⟨"Rocket", 5/4⟩),
   ("GALAXY", ⟨"Galaxy", 9/10⟩)]

/-- `REFERRAL_BONUS = 500.0`. -/
def REFERRAL_BONUS : ℚ := 500

/-- `get_token_price(symbol)`: looks up the base price in TOKENS and
returns `base_price * (1 + fluctuation)`, where `fluctuation` is the
value drawn by `random.uniform(-0.05, 0.05)` on this call, passed in
explicitly.  `none` models the KeyError on an unknown symbol. -/
def get_token_price (symbol : String) (fluctuation : ℚ) : Option ℚ :=
  match dictGet TOKENS symbol with
  | none => none
  | some info => some (info.price * (1 + fluctuation))

/-- A holding entry `{"quantity": ..., "avg_price": ...}`. -/
structure Holding where
  quantity : ℚ
  avg_price : ℚ
deriving DecidableEq

/-- A user record.  `referral_bonus` is an Option because the dict
written by `reset_portfolio` has no `"referral_bonus"` key. -/
structure UserData where
  holdings : List (String × Holding)
  sui_balance : ℚ
  referral_bonus : Option ℚ
deriving DecidableEq

/-- The in-memory USERS registry: user_id -> user_data. -/
abbrev Registry := List (Nat × UserData)

/-- The seeded account written by `get_user_data` for a new user. -/
def initialUserData : UserData :=
  { holdings := [], sui_balance := 1000, referral_bonus := some REFERRAL_BONUS }

/-- `get_user_data(user_id)`: returns the stored record, creating and
storing the seeded record first when the user is absent. -/
def get_user_data (users : Registry) (user_id : Nat) : UserData × Registry :=
  match dictGet users user_id with
  | some u => (u, users)
  | none => (initialUserData, dictSet users user_id initialUserData)

/-- `get_portfolio_value(user_id)`: `0.0` for an absent user, else the
sum over holdings of `quantity * get_token_price(token)`.  `prices`
is the price sample drawn for each token during this pass.  The pair
makes the (absent) effect on USERS explicit: the function only reads. -/
def get_portfolio_value (users : Registry) (user_id : Nat) (prices : String → ℚ) :
    ℚ × Registry :=
  match dictGet users user_id with
  | none => (0, users)
  | some u =>
      (u.holdings.foldl (fun total p => total + p.2.quantity * prices p.1) 0, users)

/-- `get_unrealized_pnl(user_id)`: `0.0` for an absent user, else the
sum over holdings of `(current_price - avg_price) * quantity`. -/
def get_unrealized_pnl (users : Registry) (user_id : Nat) (prices : String → ℚ) :
    ℚ × Registry :=
  match dictGet users user_id with
  | none => (0, users)
  | some u =>
      (u.holdings.foldl
        (fun total p => total + (prices p.1 - p.2.avg_price) * p.2.quantity) 0, users)

/-- The pnl-percent expression of `show_pnl` and `format_balance_message`:
`(total_pnl / total_value * 100) if total_value > 0 else 0`.  The two
valuation passes re-sample the oracle, hence two price samples. -/
def show_pnl_percent (users : Registry) (user_id : Nat)
    (value_prices pnl_prices : String → ℚ) : ℚ :=
  if 0 < (get_portfolio_value users user_id value_prices).1 then
    (get_unrealized_pnl users user_id pnl_prices).1 /
      (get_portfolio_value users user_id value_prices).1 * 100
  else 0

/-- The two failure replies of the trade handlers: the ValueError path
for a non-positive amount, the insufficient-balance re-prompt of
`process_buy_amount`, and the invalid-quantity re-prompt of
`process_sell_quantity` (token not held, or more than held). -/
inductive TradeError
  | invalidAmount
  | insufficientBalance
  | insufficientHoldings
deriving DecidableEq

/-- The state effect of `process_buy_amount` on one user record, with
the execution price passed in.  On success returns the updated record
and the quantity bought.  The absent-holding case mirrors the source:
a default `{"quantity": 0, "avg_price": 0}` entry feeds the
weighted-average formula. -/
def process_buy_amount (user : UserData) (token : String) (amount price : ℚ) :
    Except TradeError (UserData × ℚ) :=
  if amount ≤ 0 then Except.error TradeError.invalidAmount
  else if user.sui_balance < amount then Except.error TradeError.insufficientBalance
  else
    let quantity := amount / price
    let old : Holding := (dictGet user.holdings token).getD ⟨0, 0⟩
    let new_quantity := old.quantity + quantity
    let new_avg_price :=
      (old.quantity * old.avg_price + quantity * price) / new_quantity
    Except.ok
      ({ user with
          holdings := dictSet user.holdings token ⟨new_quantity, new_avg_price⟩,
          sui_balance := user.sui_balance - amount },
       quantity)

/-- The state effect of `process_sell_quantity` on one user record.  On
success returns the updated record and the SUI received.  A holding
whose quantity reaches exactly zero is deleted. -/
def process_sell_quantity (user : UserData) (token : String) (quantity price : ℚ) :
    Except TradeError (UserData × ℚ) :=
  if quantity ≤ 0 then Except.error TradeError.invalidAmount
  else
    match dictGet user.holdings token with
    | none => Except.error TradeError.insufficientHoldings
    | some h =>
        if h.quantity < quantity then Except.error TradeError.insufficientHoldings
        else
          let sui_received := quantity * price
          let new_qty := h.quantity - quantity
          Except.ok
            ({ user with
                holdings :=
                  if new_qty = 0 then dictRemove user.holdings token
                  else dictSet user.holdings token ⟨new_qty, h.avg_price⟩,
                sui_balance := user.sui_balance + sui_received },
             sui_received)

/-- The effect of the buy handler on the USERS registry: the record is
mutated only on the success path; both error paths return before any
assignment. -/
def apply_buy (users : Registry) (user_id : Nat) (token : String)
    (amount price : ℚ) : Registry :=
  match dictGet users user_id with
  | none => users
  | some u =>
      match process_buy_amount u token amount price with
      | Except.ok (u', _) => dictSet users user_id u'
      | Except.error _ => users

/-- The effect of the sell handler on the USERS registry. -/
def apply_sell (users : Registry) (user_id : Nat) (token : String)
    (quantity price : ℚ) : Registry :=
  match dictGet users user_id with
  | none => users
  | some u =>
      match process_sell_quantity u token quantity price with
      | Except.ok (u', _) => dictSet users user_id u'
      | Except.error _ => users

/-- `reset_portfolio`: `USERS[user_id] = {"holdings": {}, "sui_balance": 1000.0}`.
Note the written dict has no `"referral_bonus"` key. -/
def reset_portfolio (users : Registry) (user_id : Nat) : Registry :=
  dictSet users user_id { holdings := [], sui_balance := 1000, referral_bonus := none }

/-- The quantity of `token` the user holds, `0` when the key is absent. -/
def heldQuantity (user : UserData) (token : String) : ℚ :=
  match dictGet user.holdings token with
  | some h => h.quantity
  | none => 0

/-- The `user_data['referral_bonus']` read performed by `show_balance`
and `format_main_menu` after the `get_user_data` call; `none` models
the KeyError when the key is absent. -/
def show_balance_bonus (users : Registry) (user_id : Nat) : Option ℚ :=
  (get_user_data users user_id).1.referral_bonus

/- ---------------------------------------------------------------- -/
/- Association-list lemmas                                          -/
/- ---------------------------------------------------------------- -/

lemma dictGet_dictSet_self {α β : Type} [DecidableEq α]
    (l : List (α × β)) (k : α) (v : β) :
    dictGet (dictSet l k v) k = some v := by
  induction l with
  | nil => simp [dictGet, dictSet]
  | cons p rest ih =>
      obtain ⟨a, b⟩ := p
      by_cases h : a = k
      · simp [dictSet, h, dictGet]
      · simp [dictSet, h, dictGet, ih]

lemma dictGet_dictRemove_self {α β : Type} [DecidableEq α]
    (l : List (α × β)) (k : α) :
    dictGet (dictRemove l k) k = none := by
  induction l with
  | nil => simp [dictGet, dictRemove]
  | cons p rest ih =>
      obtain ⟨a, b⟩ := p
      by_cases h : a = k
      · simp [dictRemove, h, ih]
      · simp [dictRemove, h, dictGet, ih]

lemma dictSet_dictSet_self {α β : Type} [DecidableEq α]
    (l : List (α × β)) (k : α) (v : β) :
    dictSet (dictSet l k v) k v = dictSet l k v := by
  induction l with
  | nil => simp [dictSet]
  | cons p rest ih =>
      obtain ⟨a, b⟩ := p
      by_cases h : a = k
      · simp [dictSet, h]
      · simp [dictSet, h, ih]

/- ---------------------------------------------------------------- -/
/- Claims                                                           -/
/- ---------------------------------------------------------------- -/

/-- C10: for a user identity absent from the registry, both
`get_portfolio_value` and `get_unrealized_pnl` return 0 and leave the
registry exactly as it was: the valuation queries never create the
account as a side effect. -/
theorem c10_valuation_absent_user (users : Registry) (user_id : Nat)
    (prices : String → ℚ) (h : dictGet users user_id = none) :
    get_portfolio_value users user_id prices = (0, users) ∧
    get_unrealized_pnl users user_id prices = (0, users) := by
  unfold get_portfolio_value get_unrealized_pnl
  rw [h]
  exact ⟨rfl, rfl⟩

theorem c10_valuation_absent_user_witness :
    get_portfolio_value [] 7 (fun _ => 1) = (0, []) ∧
    get_unrealized_pnl [] 7 (fun _ => 1) = (0, []) :=
  c10_valuation_absent_user [] 7 (fun _ => 1) rfl

/-- C5: after `reset_portfolio` the account holds balance exactly 1000
and an empty holdings mapping, whatever the prior state; applying
`reset_portfolio` twice yields the same registry as applying it once. -/
theorem c5_reset (users : Registry) (user_id : Nat) :
    (∃ u, dictGet (reset_portfolio users user_id) user_id = some u ∧
       u.sui_balance = 1000 ∧ u.holdings = []) ∧
    reset_portfolio (reset_portfolio users user_id) user_id =
      reset_portfolio users user_id := by
  exact ⟨⟨{ holdings := [], sui_balance := 1000, referral_bonus := none },
          dictGet_dictSet_self users user_id _, rfl, rfl⟩,
         dictSet_dictSet_self users user_id _⟩

/-- C6 counterexample: at the legal fluctuation draw `1/20` (i.e. +5%,
inside `[-0.05, 0.05]`), `get_token_price` applied to the settlement
token SUI returns `21/20`, not the reference price `1`: the source
applies the random fluctuation to every symbol, SUI included. -/
theorem c6_counterexample :
    get_token_price "SUI" (1/20) = some (21/20) ∧ ((21 : ℚ)/20) ≠ 1 := by
  constructor
  · show get_token_price "SUI" (1/20) = some (21/20)
    norm_num [get_token_price, TOKENS, dictGet]
  · norm_num

/-- C6 (amended): the oracle treats the settlement token SUI exactly
like any other symbol: for a fluctuation draw `f` it returns
`1 * (1 + f) = 1 + f`, and it returns the reference price `1` exactly
when the draw is `0`. -/
theorem c6_sui_price_fluctuates (f : ℚ) :
    get_token_price "SUI" f = some (1 + f) ∧
    (get_token_price "SUI" f = some 1 ↔ f = 0) := by
  have h : get_token_price "SUI" f = some (1 + f) := by
    show get_token_price "SUI" f = some (1 + f)
    simp [get_token_price, TOKENS, dictGet]
  refine ⟨h, ?_⟩
  rw [h]
  constructor
  · intro hsome
    have : (1 : ℚ) + f = 1 := Option.some_injective ℚ hsome
    linarith
  · intro hf
    rw [hf, add_zero]

/-- C7: for any symbol present in the fixed token table with base price
`b > 0` and any fluctuation draw `f ∈ [-1/20, 1/20]`, the oracle returns
`b * (1 + f)`, which lies in `[19/20 * b, 21/20 * b]` and is strictly
positive. -/
theorem c7_price_bounds (symbol : String) (info : TokenInfo) (f : ℚ)
    (hb : dictGet TOKENS symbol = some info) (hpos : 0 < info.price)
    (hf1 : -(1/20) ≤ f) (hf2 : f ≤ 1/20) :
    get_token_price symbol f = some (info.price * (1 + f)) ∧
    0 < info.price * (1 + f) ∧
    19/20 * info.price ≤ info.price * (1 + f) ∧
    info.price * (1 + f) ≤ 21/20 * info.price := by
  refine ⟨?_, ?_, ?_, ?_⟩
  · unfold get_token_price
    rw [hb]
  · nlinarith
  · nlinarith
  · nlinarith

theorem c7_price_bounds_witness :
    get_token_price "MOON" (1/100) = some ((1/2) * (1 + 1/100)) ∧
    0 < (1/2 : ℚ) * (1 + 1/100) ∧
    19/20 * (1/2 : ℚ) ≤ (1/2) * (1 + 1/100) ∧
    (1/2 : ℚ) * (1 + 1/100) ≤ 21/20 * (1/2) :=
  c7_price_bounds "MOON" ⟨"Moon", 1/2⟩ (1/100)
    (by simp [TOKENS, dictGet]) (by norm_num) (by norm_num) (by norm_num)

/-- C8: the pnl-percent expression equals
`total_pnl / total_value * 100` whenever `total_value > 0` — and in
that branch the divisor is provably nonzero — and equals `0` whenever
`total_value = 0`; so the division branch is never taken with a zero
divisor. -/
theorem c8_pnl_percent (users : Registry) (user_id : Nat)
    (value_prices pnl_prices : String → ℚ) :
    (0 < (get_portfolio_value users user_id value_prices).1 →
      show_pnl_percent users user_id value_prices pnl_prices =
        (get_unrealized_pnl users user_id pnl_prices).1 /
          (get_portfolio_value users user_id value_prices).1 * 100 ∧
      (get_portfolio_value users user_id value_prices).1 ≠ 0) ∧
    ((get_portfolio_value users user_id value_prices).1 = 0 →
      show_pnl_percent users user_id value_prices pnl_prices = 0) := by
  constructor
  · intro hv
    refine ⟨?_, ne_of_gt hv⟩
    unfold show_pnl_percent
    rw [if_pos hv]
  · intro hv
    unfold show_pnl_percent
    rw [hv]
    rw [if_neg (lt_irrefl 0)]

theorem c8_pnl_percent_witness :
    show_pnl_percent [(1, ⟨[("MOON", ⟨2, 1/2⟩)], 900, some 500⟩)] 1
        (fun _ => 1) (fun _ => 1) =
      (get_unrealized_pnl [(1, ⟨[("MOON", ⟨2, 1/2⟩)], 900, some 500⟩)] 1
          (fun _ => 1)).1 /
        (get_portfolio_value [(1, ⟨[("MOON", ⟨2, 1/2⟩)], 900, some 500⟩)] 1
          (fun _ => 1)).1 * 100 :=
  ((c8_pnl_percent [(1, ⟨[("MOON", ⟨2, 1/2⟩)], 900, some 500⟩)] 1
      (fun _ => 1) (fun _ => 1)).1
    (by norm_num [get_portfolio_value, dictGet])).1

/-- C1: a valid buy (`0 < sui_amount ≤ balance`, execution price
`p > 0`) buys `sui_amount / p` units; a previously absent holding
comes out as `⟨sui_amount / p, p⟩`, an existing one as the
quantity-weighted average; and the balance drops by exactly
`sui_amount`. -/
theorem c1_buy (user : UserData) (token : String) (amount price : ℚ)
    (hpos : 0 < amount) (hle : amount ≤ user.sui_balance) (hp : 0 < price) :
    ∃ u', process_buy_amount user token amount price =
        Except.ok (u', amount / price) ∧
      u'.sui_balance = user.sui_balance - amount ∧
      (dictGet user.holdings token = none →
        dictGet u'.holdings token = some ⟨amount / price, price⟩) ∧
      (∀ h, dictGet user.holdings token = some h →
        dictGet u'.holdings token =
          some ⟨h.quantity + amount / price,
                (h.quantity * h.avg_price + (amount / price) * price) /
                  (h.quantity + amount / price)⟩) := by
  have hn : ¬ amount ≤ 0 := not_le.mpr hpos
  have hb : ¬ user.sui_balance < amount := not_lt.mpr hle
  have hq : amount / price ≠ 0 := ne_of_gt (div_pos hpos hp)
  refine ⟨{ user with
      holdings := dictSet user.holdings token
        ⟨((dictGet user.holdings token).getD ⟨0, 0⟩).quantity + amount / price,
         (((dictGet user.holdings token).getD ⟨0, 0⟩).quantity *
             ((dictGet user.holdings token).getD ⟨0, 0⟩).avg_price +
           (amount / price) * price) /
           (((dictGet user.holdings token).getD ⟨0, 0⟩).quantity + amount / price)⟩,
      sui_balance := user.sui_balance - amount }, ?_, rfl, ?_, ?_⟩
  · unfold process_buy_amount
    rw [if_neg hn, if_neg hb]
  · intro hnone
    rw [dictGet_dictSet_self, hnone]
    simp only [Option.getD_none]
    show some (Holding.mk (0 + amount / price)
        ((0 * 0 + (amount / price) * price) / (0 + amount / price))) = _
    rw [zero_add, zero_mul, zero_add, mul_comm, mul_div_assoc, div_self hq, mul_one]
  · intro h hsome
    rw [dictGet_dictSet_self, hsome]
    simp only [Option.getD_some]

theorem c1_buy_witness :
    ∃ u', process_buy_amount ⟨[], 1000, some 500⟩ "MOON" 100 (1/2) =
      Except.ok (u', 100 / (1/2)) := by
  obtain ⟨u', h1, -, -, -⟩ :=
    c1_buy ⟨[], 1000, some 500⟩ "MOON" 100 (1/2)
      (by norm_num) (by norm_num) (by norm_num)
  exact ⟨u', h1⟩

/-- C2: a valid sell (`0 < quantity ≤ held quantity`) credits exactly
`quantity * price` to the balance; a partial sell leaves the holding
with `held - quantity` units and the same average cost; a full sell
deletes the holding from the mapping. -/
theorem c2_sell (user : UserData) (token : String) (quantity price : ℚ)
    (h : Holding) (hh : dictGet user.holdings token = some h)
    (hq : 0 < quantity) (hle : quantity ≤ h.quantity) :
    ∃ u', process_sell_quantity user token quantity price =
        Except.ok (u', quantity * price) ∧
      u'.sui_balance = user.sui_balance + quantity * price ∧
      (quantity < h.quantity →
        dictGet u'.holdings token = some ⟨h.quantity - quantity, h.avg_price⟩) ∧
      (quantity = h.quantity → dictGet u'.holdings token = none) := by
  have hn : ¬ quantity ≤ 0 := not_le.mpr hq
  have hb : ¬ h.quantity < quantity := not_lt.mpr hle
  refine ⟨{ user with
      holdings :=
        if h.quantity - quantity = 0 then dictRemove user.holdings token
        else dictSet user.holdings token ⟨h.quantity - quantity, h.avg_price⟩,
      sui_balance := user.sui_balance + quantity * price }, ?_, rfl, ?_, ?_⟩
  · simp only [process_sell_quantity, if_neg hn, hh, if_neg hb]
  · intro hlt
    have hne : h.quantity - quantity ≠ 0 := sub_ne_zero_of_ne (ne_of_gt hlt)
    rw [if_neg hne, dictGet_dictSet_self]
  · intro heq
    have h0 : h.quantity - quantity = 0 := by rw [heq, sub_self]
    rw [if_pos h0, dictGet_dictRemove_self]

theorem c2_sell_witness :
    ∃ u', process_sell_quantity ⟨[("MOON", ⟨200, 1/2⟩)], 900, some 500⟩
        "MOON" 150 1 = Except.ok (u', 150 * 1) := by
  obtain ⟨u', h1, -, -, -⟩ :=
    c2_sell ⟨[("MOON", ⟨200, 1/2⟩)], 900, some 500⟩ "MOON" 150 1 ⟨200, 1/2⟩
      (by simp [dictGet]) (by norm_num) (by norm_num)
  exact ⟨u', h1⟩

/-- C3: a buy of more SUI than the (non-negative) balance fails with
the insufficient-balance error, and the handler leaves the USERS
registry — the account's balance and all holdings — untouched. -/
theorem c3_insufficient_balance (users : Registry) (user_id : Nat) (token : String)
    (amount price : ℚ) (user : UserData)
    (hu : dictGet users user_id = some user)
    (hb0 : 0 ≤ user.sui_balance) (ha : user.sui_balance < amount) :
    process_buy_amount user token amount price =
      Except.error TradeError.insufficientBalance ∧
    apply_buy users user_id token amount price = users := by
  have hn : ¬ amount ≤ 0 := not_le.mpr (lt_of_le_of_lt hb0 ha)
  have h1 : process_buy_amount user token amount price =
      Except.error TradeError.insufficientBalance := by
    unfold process_buy_amount
    rw [if_neg hn, if_pos ha]
  exact ⟨h1, by simp only [apply_buy, hu, h1]⟩

theorem c3_insufficient_balance_witness :
    process_buy_amount ⟨[], 1000, some 500⟩ "MOON" 2000 (1/2) =
      Except.error TradeError.insufficientBalance ∧
    apply_buy [(1, ⟨[], 1000, some 500⟩)] 1 "MOON" 2000 (1/2) =
      [(1, ⟨[], 1000, some 500⟩)] :=
  c3_insufficient_balance [(1, ⟨[], 1000, some 500⟩)] 1 "MOON" 2000 (1/2)
    ⟨[], 1000, some 500⟩ (by simp [dictGet]) (by norm_num) (by norm_num)

/-- C4: a sell of more units than held (the held quantity of an absent
symbol counting as 0) fails with the insufficient-holdings error, and
the handler leaves the USERS registry untouched. -/
theorem c4_insufficient_holdings (users : Registry) (user_id : Nat) (token : String)
    (quantity price : ℚ) (user : UserData)
    (hu : dictGet users user_id = some user)
    (h0 : 0 ≤ heldQuantity user token)
    (hq : heldQuantity user token < quantity) :
    process_sell_quantity user token quantity price =
      Except.error TradeError.insufficientHoldings ∧
    apply_sell users user_id token quantity price = users := by
  have hn : ¬ quantity ≤ 0 := not_le.mpr (lt_of_le_of_lt h0 hq)
  have h1 : process_sell_quantity user token quantity price =
      Except.error TradeError.insufficientHoldings := by
    cases hcase : dictGet user.holdings token with
    | none => simp only [process_sell_quantity, if_neg hn, hcase]
    | some h =>
        have hlt : h.quantity < quantity := by
          have h' := hq
          unfold heldQuantity at h'
          rw [hcase] at h'
          exact h'
        simp only [process_sell_quantity, if_neg hn, hcase, if_pos hlt]
  exact ⟨h1, by simp only [apply_sell, hu, h1]⟩

theorem c4_insufficient_holdings_witness :
    process_sell_quantity ⟨[], 1000, some 500⟩ "MOON" 5 1 =
      Except.error TradeError.insufficientHoldings ∧
    apply_sell [(1, ⟨[], 1000, some 500⟩)] 1 "MOON" 5 1 =
      [(1, ⟨[], 1000, some 500⟩)] :=
  c4_insufficient_holdings [(1, ⟨[], 1000, some 500⟩)] 1 "MOON" 5 1
    ⟨[], 1000, some 500⟩ (by simp [dictGet])
    (by norm_num [heldQuantity, dictGet]) (by norm_num [heldQuantity, dictGet])

/-- C9: a freshly created account carries `referral_bonus = 500`, but
`reset_portfolio` stores a record without that key; after a reset the
bonus read performed by the main menu and the balance display yields
`none` (a KeyError), and neither buy nor sell ever restores the key. -/
theorem c9_referral_bonus (users : Registry) (user_id : Nat) :
    (dictGet users user_id = none →
      (get_user_data users user_id).1.referral_bonus = some REFERRAL_BONUS) ∧
    show_balance_bonus (reset_portfolio users user_id) user_id = none ∧
    (∀ u token amount price u' q,
      process_buy_amount u token amount price = Except.ok (u', q) →
        u'.referral_bonus = u.referral_bonus) ∧
    (∀ u token quantity price u' q,
      process_sell_quantity u token quantity price = Except.ok (u', q) →
        u'.referral_bonus = u.referral_bonus) := by
  refine ⟨?_, ?_, ?_, ?_⟩
  · intro h
    simp only [get_user_data, h]
    rfl
  · unfold show_balance_bonus get_user_data reset_portfolio
    rw [dictGet_dictSet_self]
  · intro u token amount price u' q hok
    unfold process_buy_amount at hok
    by_cases h1 : amount ≤ 0
    · rw [if_pos h1] at hok
      exact absurd hok (by simp)
    rw [if_neg h1] at hok
    by_cases h2 : u.sui_balance < amount
    · rw [if_pos h2] at hok
      exact absurd hok (by simp)
    rw [if_neg h2] at hok
    simp only [Except.ok.injEq, Prod.mk.injEq] at hok
    rw [← hok.1]
  · intro u token quantity price u' q hok
    unfold process_sell_quantity at hok
    by_cases h1 : quantity ≤ 0
    · rw [if_pos h1] at hok
      exact absurd hok (by simp)
    rw [if_neg h1] at hok
    cases hcase : dictGet u.holdings token with
    | none =>
        rw [hcase] at hok
        exact absurd hok (by simp)
    | some h =>
        rw [hcase] at hok
        by_cases h2 : h.quantity < quantity
        · simp only [if_pos h2] at hok
          exact absurd hok (by simp)
        · simp only [if_neg h2, Except.ok.injEq, Prod.mk.injEq] at hok
          rw [← hok.1]

theorem c9_referral_bonus_witness :
    (get_user_data [] 1).1.referral_bonus = some REFERRAL_BONUS :=
  (c9_referral_bonus [] 1).1 rfl
